import Mathlib

/-!
Verification development for the streamer-data aggregation core of the
`fioletowy-orlik-nodejs` repository.

The repository is a sequence of iterative rewrites of one application; two
variants of the statistics service live side by side in
`src/src/services/DatabaseService.ts` (a newer guarded `StatsService` and an
older unguarded one), and two variants of the Twitch client live in
`src/src/services/TwitchServices.ts` (per-identity fetching, batch size 3)
and `src/unnamed/part_004` (bulk fetching, batch size 100).  Definitions
below are transcribed from those sources; doc comments name the file and
line range each definition embeds.  JavaScript numbers are modelled as
`Int`/`ℚ`, with `Option` for the non-finite `NaN` results and for
`null`/`undefined` fields; timestamps are integer epoch milliseconds.
-/

/-- Live-stream object of the Twitch `/streams` endpoint (`TwitchStream` in
`src/src/types/types.ts`).  The presentation-only `thumbnail_url`,
`tag_ids` and `is_mature` fields are used by no claim and are omitted. -/
structure TwitchStream where
  user_login : String
  user_name : String
  game_name : String
  title : String
  viewer_count : Int
  started_at : Int
  language : String
  deriving Repr, DecidableEq

/-- User object of the Twitch `/users` endpoint (`TwitchUser` in
`src/src/types/types.ts`). -/
structure TwitchUser where
  id : String
  login : String
  display_name : String
  broadcaster_type : String
  description : String
  profile_image_url : String
  view_count : Int
  created_at : Int
  deriving Repr, DecidableEq

/-- Nested live-stream data attached to a merged record by `getStreamerInfo`
(`src/src/services/TwitchServices.ts` lines 267-276).  The rewritten
thumbnail URL is presentation-only and omitted. -/
structure StreamData where
  title : String
  gameName : String
  viewerCount : Int
  startedAt : Int
  language : String
  deriving Repr, DecidableEq

/-- Merged streamer record (`StreamerInfo` in `src/src/types/types.ts`).
The interface is the union of the fields the two pipeline variants set;
optional fields default to `none`, which models both a JavaScript `null`
and an absent property. -/
structure StreamerInfo where
  id : Option String := none
  login : String := ""
  displayName : String := ""
  description : Option String := none
  profileImageUrl : Option String := none
  viewCount : Option Int := none
  broadcasterType : Option String := none
  createdAt : Option Int := none
  isLive : Bool := false
  accountAgeDays : Option Int := none
  streamDurationMinutes : Option Int := none
  streamData : Option StreamData := none
  viewers : Option Int := none
  title : Option String := none
  gameName : Option String := none
  deriving Repr, DecidableEq

/-- Merge step of `TwitchService.getStreamerInfo`
(`src/src/services/TwitchServices.ts` lines 242-278): builds the record
from a user, the optional stream, and the current time.  `Math.floor`
divisions become `Int.fdiv`. -/
def mkStreamerInfo (now : Int) (user : TwitchUser) (stream : Option TwitchStream) :
    StreamerInfo :=
  { id := some user.id
    login := user.login
    displayName := user.display_name
    description := some user.description
    profileImageUrl := some user.profile_image_url
    viewCount := some user.view_count
    broadcasterType := some user.broadcaster_type
    createdAt := some user.created_at
    isLive := stream.isSome
    accountAgeDays := some ((now - user.created_at).fdiv 86400000)
    streamDurationMinutes := stream.map (fun st => (now - st.started_at).fdiv 60000)
    streamData := stream.map (fun st =>
      { title := st.title
        gameName := st.game_name
        viewerCount := st.viewer_count
        startedAt := st.started_at
        language := st.language }) }

/-- `TwitchService.getStreamerInfo` (`src/src/services/TwitchServices.ts`
lines 231-279) given the outcomes of its two lookups: a missing user yields
`null`; otherwise the merge step runs. -/
def getStreamerInfo (now : Int) (user : Option TwitchUser) (stream : Option TwitchStream) :
    Option StreamerInfo :=
  user.map (fun u => mkStreamerInfo now u stream)

/-- Lookup in the `streamsMap` built by `getStreamersInfo`
(`src/unnamed/part_004` line 122): a JavaScript `Map` built from a list of
entries keeps the last entry for a duplicate key, hence the reversed
`find?`; keys are lowercased logins. -/
def lookupStream (streams : List TwitchStream) (login : String) : Option TwitchStream :=
  streams.reverse.find? (fun s => s.user_login.toLower == login.toLower)

/-- Merge step of the bulk `TwitchService.getStreamersInfo`
(`src/unnamed/part_004` lines 124-137): a flat record built from a user and
the optional matching stream.  The record literal there sets no
`streamData`, `accountAgeDays` or `streamDurationMinutes` properties, so
those fields stay absent. -/
def mkStreamerInfoBulk (user : TwitchUser) (stream : Option TwitchStream) : StreamerInfo :=
  { displayName := user.display_name
    login := user.login
    isLive := stream.isSome
    viewers := stream.map (fun st => st.viewer_count)
    title := stream.map (fun st => st.title)
    gameName := stream.map (fun st => st.game_name)
    viewCount := some user.view_count
    broadcasterType := some user.broadcaster_type
    createdAt := some user.created_at }

/-- One batch of the bulk merge (`src/unnamed/part_004` lines 121-137):
every user of the users response is merged with the stream found under its
lowercased login; streams without a matching user are dropped. -/
def getStreamersInfoMerge (users : List TwitchUser) (streams : List TwitchStream) :
    List StreamerInfo :=
  users.map (fun u => mkStreamerInfoBulk u (lookupStream streams u.login))

/-- JavaScript number division restricted to the values this program
produces: `some (a / b)` when the divisor is nonzero, and `none` standing
for the non-finite result (`NaN` for `0 / 0`) that JavaScript yields on a
zero divisor. -/
def jsDiv (a b : ℚ) : Option ℚ :=
  if b = 0 then none else some (a / b)

/-- `totalViews` of the newer `calculateStatistics`
(`src/src/services/DatabaseService.ts` line 148):
`streamers.reduce((sum, s) => sum + (s.viewCount || 0), 0)`. -/
def totalViews (l : List StreamerInfo) : Int :=
  l.foldl (fun sum s => sum + s.viewCount.getD 0) 0

/-- `averageViews` of the newer `calculateStatistics`
(`src/src/services/DatabaseService.ts` line 149):
`totalStreamers > 0 ? totalViews / totalStreamers : 0`. -/
def averageViews (l : List StreamerInfo) : ℚ :=
  if 0 < l.length then (totalViews l : ℚ) / (l.length : ℚ) else 0

/-- `totalViews` of the older `calculateStatistics`
(`src/src/services/DatabaseService.ts` line 304):
`streamers.reduce((sum, s) => sum + s.viewCount, 0)` with no `|| 0` guard,
so an absent `viewCount` poisons the sum to `NaN` (modelled as `none`). -/
def totalViewsUnguarded (l : List StreamerInfo) : Option Int :=
  if l.all (fun s => s.viewCount.isSome) then
    some (l.foldl (fun sum s => sum + s.viewCount.getD 0) 0)
  else none

/-- `averageViews` of the older `calculateStatistics`
(`src/src/services/DatabaseService.ts` line 305):
`totalViews / totalStreamers` with no emptiness guard, so the empty list
divides zero by zero, giving `NaN` (modelled as `none`). -/
def averageViewsUnguarded (l : List StreamerInfo) : Option ℚ :=
  match totalViewsUnguarded l with
  | none => none
  | some t => jsDiv (t : ℚ) (l.length : ℚ)

/-- JavaScript `Array.prototype.sort` with the comparator
`(a, b) => key(b) - key(a)`: a stable sort ordering the elements
descending by `key`. -/
def jsSortByDesc (key : StreamerInfo → Int) (l : List StreamerInfo) : List StreamerInfo :=
  l.mergeSort (fun a b => decide (key b ≤ key a))

/-- Sort key `(s.viewCount || 0)` used for the top-streamers ranking. -/
def viewCountKey (s : StreamerInfo) : Int :=
  s.viewCount.getD 0

/-- Sort key `(s.viewers || 0)` of the newer `calculateStatistics`
(`src/src/services/DatabaseService.ts` line 160). -/
def viewersKey (s : StreamerInfo) : Int :=
  s.viewers.getD 0

/-- Sort key `(s.streamData?.viewerCount || 0)` of the older
`calculateStatistics` (`src/src/services/DatabaseService.ts` line 314). -/
def streamViewerKey (s : StreamerInfo) : Int :=
  (s.streamData.map (fun d => d.viewerCount)).getD 0

/-- `liveStreamersData` of the newer `calculateStatistics`
(`src/src/services/DatabaseService.ts` lines 157-160): the live records
whose `viewers` field is not `null`, sorted descending by `viewers`. -/
def sortedLiveStreamers (l : List StreamerInfo) : List StreamerInfo :=
  jsSortByDesc viewersKey ((l.filter (fun s => s.isLive)).filter (fun s => s.viewers.isSome))

/-- `liveStreamersData` of the older `calculateStatistics`
(`src/src/services/DatabaseService.ts` lines 312-314): all live records,
sorted descending by `streamData?.viewerCount || 0`. -/
def sortedLiveStreamersUnfiltered (l : List StreamerInfo) : List StreamerInfo :=
  jsSortByDesc streamViewerKey (l.filter (fun s => s.isLive))

/-- Token slot of the service: `accessToken` and `tokenExpiresAt`
(`src/src/services/TwitchServices.ts` lines 20-21), both `null` initially
and nulled together on invalidation. -/
abbrev TokState := Option (String × Int)

/-- Errors a request pipeline call can end in.  `twitchApiError` is the
`TwitchApiError` class of `src/src/types/types.ts`; `httpError` is an
axios error rethrown with its response status.  `rateLimitExceeded` is
modelled from the spec: it stands for the `RateLimitExceededError` the
specification names, which no source file defines; it exists here only so
that the specified and the actual exhaustion outcome can be compared. -/
inductive ReqError where
  | twitchApiError (message : String) (status : Option Nat)
  | httpError (status : Nat)
  | rateLimitExceeded
  deriving Repr, DecidableEq

/-- Outcome of one client-credentials exchange against the token endpoint,
as seen by the service: success carries `(access_token, expires_in)`
(seconds); failure carries the endpoint's HTTP status, or `none` for a
non-response (network) error. -/
abbrev ExchangeOutcome := Except (Option Nat) (String × Int)

/-- Exchange branch of `getAccessToken`
(`src/src/services/TwitchServices.ts` lines 47-91): on success the slot
stores `now + expires_in*1000 - 300000`; a 400 or 401 from the token
endpoint throws the dedicated `TwitchApiError`s, anything else the generic
one.  The `Bool` reports that an upstream exchange happened. -/
def tokenExchangeOutcome (now : Int) (xch : ExchangeOutcome) :
    Except ReqError (TokState × String × Bool) :=
  match xch with
  | .ok (tok, expiresIn) => .ok (some (tok, now + expiresIn * 1000 - 300000), tok, true)
  | .error (some 400) => .error (.twitchApiError "Invalid client credentials" (some 400))
  | .error (some 401) =>
      .error (.twitchApiError "Unauthorized - check your client ID and secret" (some 401))
  | .error _ => .error (.twitchApiError "Failed to authenticate with Twitch API" none)

/-- `getAccessToken` of `src/src/services/TwitchServices.ts` (lines 40-92):
the cached token is returned, without contacting the upstream, exactly
when the slot is populated and `Date.now() < tokenExpiresAt - 300000`. -/
def getAccessToken (st : TokState) (now : Int) (xch : ExchangeOutcome) :
    Except ReqError (TokState × String × Bool) :=
  match st with
  | some (tok, exp) =>
      if now < exp - 300000 then .ok (some (tok, exp), tok, false)
      else tokenExchangeOutcome now xch
  | none => tokenExchangeOutcome now xch

/-- Exchange branch of the `part_004` `getAccessToken` (lines 53-68): same
storage formula, but every failure throws the one generic
`TwitchApiError`. -/
def tokenExchangeOutcomeV2 (now : Int) (xch : ExchangeOutcome) :
    Except ReqError (TokState × String × Bool) :=
  match xch with
  | .ok (tok, expiresIn) => .ok (some (tok, now + expiresIn * 1000 - 300000), tok, true)
  | .error _ => .error (.twitchApiError "Authentication with Twitch API failed." none)

/-- `getAccessToken` of `src/unnamed/part_004` (lines 40-69): the cached
token is returned exactly when `Date.now() < tokenExpiresAt`, with no
additional subtraction in the check (the stored `tokenExpiresAt` already
includes the 5-minute buffer). -/
def getAccessTokenV2 (st : TokState) (now : Int) (xch : ExchangeOutcome) :
    Except ReqError (TokState × String × Bool) :=
  match st with
  | some (tok, exp) =>
      if now < exp then .ok (some (tok, exp), tok, false)
      else tokenExchangeOutcomeV2 now xch
  | none => tokenExchangeOutcomeV2 now xch

/-- Observable actions of one `makeRequest` call: a token-endpoint
exchange, a data request carrying the Bearer token of its headers, and a
`setTimeout` sleep in milliseconds. -/
inductive ReqEvent where
  | tokenExchange
  | dataRequest (authToken : String)
  | sleepMs (ms : Int)
  deriving Repr, DecidableEq

/-- Outcome of one attempt's HTTP round trip: success with the payload, or
an error response with its status and optional `ratelimit-reset` header
(epoch seconds). -/
inductive HttpOutcome (α : Type) where
  | success (data : α)
  | failure (status : Nat) (rateLimitReset : Option Int)
  deriving Repr, DecidableEq

/-- Result of a `makeRequest` call: the events it performed in order, its
returned value or thrown error, and the token slot it leaves behind. -/
structure MkResult (α : Type) where
  events : List ReqEvent
  result : Except ReqError α
  finalTok : TokState

/-- Retry loop of `makeRequest` (`src/src/services/TwitchServices.ts`
lines 117-165), transcribed per branch: `resp i` is attempt `i`'s round
trip and `nowAt i` the clock when attempt `i` handles its error.  On 429
with attempts left it sleeps `Math.max(reset*1000 - now, 1000)` (60000
when the header is absent) and continues; on 401 with attempts left it
nulls the token slot and continues — with the same `headers` captured
before the loop, hence the unchanged `tok`; on the last attempt the
original error is rethrown; any other error retries immediately.  `fuel`
counts the attempts still permitted, so the exhausted-fuel branch is the
unreachable `throw` after the loop (line 167). -/
def mrLoop (resp : Nat → HttpOutcome α) (nowAt : Nat → Int) (maxRetries : Nat)
    (tok : String) : Nat → Nat → TokState → List ReqEvent → MkResult α
  | _attempt, 0, st, evs =>
      ⟨evs, .error (.twitchApiError "Maximum retry attempts exceeded" none), st⟩
  | attempt, fuel + 1, st, evs =>
      let evs1 := evs ++ [.dataRequest tok]
      match resp attempt with
      | .success d => ⟨evs1, .ok d, st⟩
      | .failure status reset =>
          if status = 429 ∧ attempt < maxRetries then
            let waitTime := match reset with
              | some r => r * 1000 - nowAt attempt
              | none => (60000 : Int)
            mrLoop resp nowAt maxRetries tok (attempt + 1) fuel st
              (evs1 ++ [.sleepMs (max waitTime 1000)])
          else if status = 401 ∧ attempt < maxRetries then
            mrLoop resp nowAt maxRetries tok (attempt + 1) fuel none evs1
          else if attempt = maxRetries then
            ⟨evs1, .error (.httpError status), st⟩
          else
            mrLoop resp nowAt maxRetries tok (attempt + 1) fuel st evs1

/-- `makeRequest` (`src/src/services/TwitchServices.ts` lines 110-168):
`getAuthHeaders` runs once before the loop — so the Bearer token of every
attempt is the one obtained here — and a token-exchange failure
propagates out with the slot unchanged. -/
def makeRequest (st0 : TokState) (nowAt : Nat → Int) (xch : ExchangeOutcome)
    (resp : Nat → HttpOutcome α) (maxRetries : Nat) : MkResult α :=
  match getAccessToken st0 (nowAt 0) xch with
  | .error e => ⟨[.tokenExchange], .error e, st0⟩
  | .ok (st1, tok, exchanged) =>
      mrLoop resp nowAt maxRetries tok 1 maxRetries st1
        (if exchanged then [.tokenExchange] else [])

/-- `getUserByLogin` (`src/src/services/TwitchServices.ts` lines 173-197)
applied to the outcome of its `makeRequest` call: the catch block turns
every thrown error into a returned `null`, an empty `data` array is
`null`, otherwise the first user is returned.  The `Except` result type
records that the call could in principle reject; the transcribed body
shows it never does. -/
def getUserByLogin (mk : MkResult (List TwitchUser)) :
    Except ReqError (Option TwitchUser) :=
  match mk.result with
  | .error _ => .ok none
  | .ok users => .ok users.head?

/-- `getMultipleStreamersInfo` (`src/src/services/TwitchServices.ts` lines
284-317) over an oracle `fetch` giving each identity's `getStreamerInfo`
outcome (`none` for a not-found or caught failure; `getStreamerInfo` never
rejects, since both lookups inside it catch all errors): slices of three
are settled and the fulfilled non-null values pushed in order. -/
def getMultipleStreamersInfo (fetch : String → Option StreamerInfo)
    (logins : List String) : List StreamerInfo :=
  if h : logins = [] then []
  else (logins.take 3).filterMap fetch ++ getMultipleStreamersInfo fetch (logins.drop 3)
termination_by logins.length
decreasing_by
  have hl : 0 < logins.length := List.length_pos.mpr h
  simp only [List.length_drop]
  omega

/-- Batch partition of the fetch loops (`src/src/services/TwitchServices.ts`
lines 290-313 with `batchSize = 3`, `src/unnamed/part_004` lines 105-146
with `BATCH_SIZE = 100`): successive slices of at most `B` identities,
processed sequentially. -/
def chunkList {α : Type} (B : Nat) (l : List α) : List (List α) :=
  match l, B with
  | [], _ => []
  | _ :: _, 0 => []
  | a :: t, B + 1 => (a :: t).take (B + 1) :: chunkList (B + 1) ((a :: t).drop (B + 1))
termination_by l.length
decreasing_by
  simp only [List.length_drop, List.length_cons]
  omega

/-- Count of inter-batch sleeps of the same loops: the delay runs exactly
when `i + batchSize < logins.length`, i.e. when more than one batch of the
remaining identities is left, so it is skipped after the last batch. -/
def interBatchSleeps {α : Type} (B : Nat) (l : List α) : Nat :=
  match l, B with
  | [], _ => 0
  | _ :: _, 0 => 0
  | a :: t, B + 1 =>
      (if B + 1 < (a :: t).length then 1 else 0) +
        interBatchSleeps (B + 1) ((a :: t).drop (B + 1))
termination_by l.length
decreasing_by
  simp only [List.length_drop, List.length_cons]
  omega

/-- Heap of JavaScript array objects: each position is one array identity,
so aliasing and in-place mutation are observable. -/
abbrev Heap := List (List StreamerInfo)

/-- Allocation of a fresh array (what `filter`, the spread `[...]` and
`slice` return): appends the value and returns its reference. -/
def halloc (h : Heap) (v : List StreamerInfo) : Heap × Nat :=
  (h ++ [v], h.length)

/-- Read of the array behind a reference. -/
def hget (h : Heap) (r : Nat) : List StreamerInfo :=
  (h[r]?).getD []

/-- In-place update of the array behind a reference (what
`Array.prototype.sort` does to its receiver). -/
def hset (h : Heap) (r : Nat) (v : List StreamerInfo) : Heap :=
  h.set r v

/-- Array allocations and in-place sorts of the newer
`calculateStatistics` (`src/src/services/DatabaseService.ts` lines
140-206) in source order: the live/partner/affiliate filters allocate;
`topStreamers` spreads the input, filters the copy for a defined
`viewCount`, sorts that filter result in place and slices; the live list
is filtered for non-null `viewers` and that filter result sorted in
place.  Returns the final heap. -/
def calculateStatisticsHeap (h : Heap) (input : Nat) : Heap :=
  let s := hget h input
  let (h1, live) := halloc h (s.filter (fun r => r.isLive))
  let (h2, _partners) := halloc h1 (s.filter (fun r => r.broadcasterType == some "partner"))
  let (h3, _affiliates) := halloc h2 (s.filter (fun r => r.broadcasterType == some "affiliate"))
  let (h4, copy) := halloc h3 (hget h3 input)
  let (h5, t1) := halloc h4 ((hget h4 copy).filter (fun r => r.viewCount.isSome))
  let h6 := hset h5 t1 (jsSortByDesc viewCountKey (hget h5 t1))
  let (h7, _top) := halloc h6 ((hget h6 t1).take 5)
  let (h8, l1) := halloc h7 ((hget h7 live).filter (fun r => r.viewers.isSome))
  hset h8 l1 (jsSortByDesc viewersKey (hget h8 l1))

/-- Array allocations and in-place sorts of the older
`calculateStatistics` (`src/src/services/DatabaseService.ts` lines
296-360) in source order: the three filters allocate; `topStreamers`
spreads the input and sorts the copy in place, then slices;
`sortedLiveStreamers` sorts the live filter result in place.  Returns the
final heap. -/
def calculateStatisticsHeapV2 (h : Heap) (input : Nat) : Heap :=
  let s := hget h input
  let (h1, live) := halloc h (s.filter (fun r => r.isLive))
  let (h2, _partners) := halloc h1 (s.filter (fun r => r.broadcasterType == some "partner"))
  let (h3, _affiliates) := halloc h2 (s.filter (fun r => r.broadcasterType == some "affiliate"))
  let (h4, copy) := halloc h3 (hget h3 input)
  let h5 := hset h4 copy (jsSortByDesc viewCountKey (hget h4 copy))
  let (h6, _top) := halloc h5 ((hget h5 copy).take 5)
  hset h6 live (jsSortByDesc streamViewerKey (hget h6 live))

/-- Sample user for concrete evaluations. -/
def sampleUser : TwitchUser :=
  { id := "1", login := "alice", display_name := "Alice", broadcaster_type := "partner",
    description := "", profile_image_url := "", view_count := 100, created_at := 0 }

/-- Sample live stream for concrete evaluations. -/
def sampleStream : TwitchStream :=
  { user_login := "alice", user_name := "Alice", game_name := "Chess", title := "t",
    viewer_count := 50, started_at := 0, language := "en" }

/-- A type-valid record that is live but carries a `null` viewer count. -/
def nullViewersLive : StreamerInfo :=
  { login := "x", isLive := true, viewers := none }

/-- Response trace whose first attempt is a 401 and whose second succeeds. -/
def resp401then200 : Nat → HttpOutcome Nat :=
  fun i => if i = 1 then .failure 401 none else .success 42

/-- Response trace answering every attempt with a 429 and no reset header. -/
def always429 : Nat → HttpOutcome Nat :=
  fun _ => .failure 429 none

/-- Per-identity oracle whose lookup of `"b"` fails (404 or network error)
and which succeeds for every other login. -/
def sampleFetch : String → Option StreamerInfo :=
  fun l => if l = "b" then none else some { login := l }

theorem jsSortByDesc_perm (key : StreamerInfo → Int) (l : List StreamerInfo) :
    (jsSortByDesc key l).Perm l :=
  List.mergeSort_perm l _

theorem jsSortByDesc_sorted (key : StreamerInfo → Int) (l : List StreamerInfo) :
    List.Pairwise (fun a b => key b ≤ key a) (jsSortByDesc key l) := by
  have h := @List.sorted_mergeSort StreamerInfo
    (fun a b => decide (key b ≤ key a))
    (fun a b c hab hbc => by
      simp only [decide_eq_true_eq] at hab hbc ⊢
      omega)
    (fun a b => by
      simp only [Bool.or_eq_true, decide_eq_true_eq]
      omega) l
  exact h.imp (fun hab => by simpa using hab)

/-- C1 (amended).  The newer `calculateStatistics` is total: on the empty
list its `averageViews` is the guarded `0`, and on any non-empty list it
is `totalViews` divided by the record count.  The older variant equals
`totalViews / count` on non-empty lists whose view counts are defined, but
on the empty list it divides zero by zero and yields `NaN` (`none`), not
`0`; neither variant raises an exception. -/
theorem calculateStatistics_averageViews_total :
    averageViews [] = 0 ∧
    (∀ l : List StreamerInfo, l ≠ [] →
      averageViews l = (totalViews l : ℚ) / (l.length : ℚ)) ∧
    (∀ (l : List StreamerInfo) (t : Int), l ≠ [] → totalViewsUnguarded l = some t →
      averageViewsUnguarded l = some ((t : ℚ) / (l.length : ℚ))) ∧
    averageViewsUnguarded [] = none := by
  refine ⟨by simp [averageViews], ?_, ?_, by simp [averageViewsUnguarded, totalViewsUnguarded, jsDiv]⟩
  · intro l hne
    rw [averageViews, if_pos (List.length_pos.mpr hne)]
  · intro l t hne ht
    have hlen : (l.length : ℚ) ≠ 0 := by
      have h0 : 0 < l.length := List.length_pos.mpr hne
      exact Nat.cast_ne_zero.mpr (by omega)
    rw [averageViewsUnguarded]
    rw [ht]
    simp [jsDiv, hlen]

/-- Witness for C1 at the one-record list with 4 lifetime views. -/
theorem calculateStatistics_averageViews_total_witness :
    averageViews [{ login := "a", viewCount := some 4 }] =
      (totalViews [{ login := "a", viewCount := some 4 }] : ℚ) /
        (([{ login := "a", viewCount := some 4 }] : List StreamerInfo).length : ℚ) ∧
    averageViewsUnguarded [{ login := "a", viewCount := some 4 }] =
      some ((4 : ℚ) / (([{ login := "a", viewCount := some 4 }] : List StreamerInfo).length : ℚ)) := by
  constructor
  · exact calculateStatistics_averageViews_total.2.1 _ (by simp)
  · exact calculateStatistics_averageViews_total.2.2.1 _ 4 (by simp)
      (by simp [totalViewsUnguarded])

/-- Counterexample to C1 as stated: the older `calculateStatistics` cited
by the claim returns `NaN` (`none`), not `0`, for the empty input list. -/
theorem averageViewsUnguarded_empty_not_zero :
    averageViewsUnguarded [] = none ∧ averageViewsUnguarded [] ≠ some 0 := by
  constructor
  · simp [averageViewsUnguarded, totalViewsUnguarded, jsDiv]
  · simp [averageViewsUnguarded, totalViewsUnguarded, jsDiv]

/-- C2 (amended).  Records built by `getStreamerInfo` satisfy both halves
of the invariant: `isLive` holds exactly when `streamData` is present, and
exactly when `streamDurationMinutes` is present.  Records built by the
bulk `getStreamersInfo` merge satisfy `isLive` exactly when the stream
fields (`viewers`) are present, but their `streamDurationMinutes` is
always absent, including on live records. -/
theorem merge_isLive_invariant :
    (∀ (now : Int) (u : TwitchUser) (s : Option TwitchStream),
      ((mkStreamerInfo now u s).isLive = (mkStreamerInfo now u s).streamData.isSome) ∧
      ((mkStreamerInfo now u s).isLive = (mkStreamerInfo now u s).streamDurationMinutes.isSome)) ∧
    (∀ (u : TwitchUser) (s : Option TwitchStream),
      ((mkStreamerInfoBulk u s).isLive = (mkStreamerInfoBulk u s).viewers.isSome) ∧
      (mkStreamerInfoBulk u s).streamDurationMinutes = none) := by
  constructor
  · intro now u s
    cases s <;> simp [mkStreamerInfo]
  · intro u s
    cases s <;> simp [mkStreamerInfoBulk]

/-- Counterexample to C2 as stated: the bulk merge produces a live record
whose `streamDurationMinutes` is absent. -/
theorem bulk_merge_live_record_has_no_duration :
    (mkStreamerInfoBulk sampleUser (some sampleStream)).isLive = true ∧
    (mkStreamerInfoBulk sampleUser (some sampleStream)).streamDurationMinutes = none :=
  ⟨rfl, rfl⟩

/-- C9 (amended).  The older `calculateStatistics` puts into
`liveStreamersData` exactly the live records (as a multiset), sorted
descending by `streamData?.viewerCount` with an absent count treated as 0.
The newer variant first drops live records whose `viewers` field is
`null`, then sorts the rest descending by `viewers`. -/
theorem liveStreamersData_content_and_order :
    (∀ l : List StreamerInfo,
      (sortedLiveStreamersUnfiltered l).Perm (l.filter (fun s => s.isLive)) ∧
      List.Pairwise (fun a b => streamViewerKey b ≤ streamViewerKey a)
        (sortedLiveStreamersUnfiltered l)) ∧
    (∀ l : List StreamerInfo,
      (sortedLiveStreamers l).Perm
        ((l.filter (fun s => s.isLive)).filter (fun s => s.viewers.isSome)) ∧
      List.Pairwise (fun a b => viewersKey b ≤ viewersKey a) (sortedLiveStreamers l)) :=
  ⟨fun _ => ⟨jsSortByDesc_perm _ _, jsSortByDesc_sorted _ _⟩,
   fun _ => ⟨jsSortByDesc_perm _ _, jsSortByDesc_sorted _ _⟩⟩

/-- Counterexample to C9 as stated: a live record with a `null` viewer
count is dropped from `liveStreamersData` by the newer
`calculateStatistics`, not included as a zero-viewer entry. -/
theorem sortedLiveStreamers_drops_null_viewers :
    nullViewersLive.isLive = true ∧ sortedLiveStreamers [nullViewersLive] = [] := by
  constructor
  · rfl
  · simp [sortedLiveStreamers, jsSortByDesc, nullViewersLive]

theorem getMultipleStreamersInfo_eq_filterMap (fetch : String → Option StreamerInfo) :
    ∀ (n : Nat) (l : List String), l.length ≤ n →
      getMultipleStreamersInfo fetch l = l.filterMap fetch := by
  intro n
  induction n with
  | zero =>
    intro l hl
    have : l = [] := by
      cases l with
      | nil => rfl
      | cons a t => simp at hl
    subst this
    rw [getMultipleStreamersInfo]
    simp
  | succ n ih =>
    intro l hl
    rw [getMultipleStreamersInfo]
    by_cases h : l = []
    · simp [h]
    · rw [dif_neg h]
      conv_rhs => rw [← List.take_append_drop 3 l]
      rw [List.filterMap_append]
      have hlen : (l.drop 3).length ≤ n := by
        have := List.length_pos.mpr h
        simp only [List.length_drop]
        omega
      rw [ih _ hlen]

theorem chunkList_cons {α : Type} (B : Nat) (a : α) (t : List α) :
    chunkList (B + 1) (a :: t) =
      (a :: t).take (B + 1) :: chunkList (B + 1) ((a :: t).drop (B + 1)) := by
  rw [chunkList]

theorem interBatchSleeps_cons {α : Type} (B : Nat) (a : α) (t : List α) :
    interBatchSleeps (B + 1) (a :: t) =
      (if B + 1 < (a :: t).length then 1 else 0) +
        interBatchSleeps (B + 1) ((a :: t).drop (B + 1)) := by
  rw [interBatchSleeps]

theorem chunkList_nil {α : Type} (B : Nat) : chunkList B ([] : List α) = [] := by
  rw [chunkList]

theorem interBatchSleeps_nil {α : Type} (B : Nat) : interBatchSleeps B ([] : List α) = 0 := by
  rw [interBatchSleeps]

theorem chunkList_spec {α : Type} (B : Nat) :
    ∀ (n : Nat) (l : List α), l.length ≤ n → l ≠ [] →
      (chunkList (B + 1) l).length = (l.length + B) / (B + 1) ∧
      interBatchSleeps (B + 1) l = (chunkList (B + 1) l).length - 1 ∧
      (chunkList (B + 1) l).flatten = l := by
  intro n
  induction n with
  | zero =>
    intro l hl hne
    cases l with
    | nil => exact absurd rfl hne
    | cons a t => simp at hl
  | succ n ih =>
    intro l hl hne
    match l, hne with
    | a :: t, _ =>
      rw [chunkList_cons, interBatchSleeps_cons]
      by_cases hrest : (a :: t).drop (B + 1) = []
      · have hlen : t.length + 1 ≤ B + 1 := by
          have := congrArg List.length hrest
          simp only [List.length_drop, List.length_nil, List.length_cons] at this
          omega
        have hdiv : ((a :: t).length + B) / (B + 1) = 1 := by
          simp only [List.length_cons]
          exact Nat.div_eq_of_lt_le (by omega) (by omega)
        have htake : (a :: t).take (B + 1) = a :: t := by
          have hj := List.take_append_drop (B + 1) (a :: t)
          rw [hrest, List.append_nil] at hj
          exact hj
        refine ⟨?_, ?_, ?_⟩
        · rw [hrest, hdiv, chunkList_nil]
          rfl
        · have hnot : ¬ (B + 1 < (a :: t).length) := by
            simp only [List.length_cons]
            omega
          rw [hrest, chunkList_nil, interBatchSleeps_nil, if_neg hnot]
          simp
        · rw [hrest, chunkList_nil]
          simpa using htake
      · have hlen : B + 1 < t.length + 1 := by
          have h0 : 0 < ((a :: t).drop (B + 1)).length := List.length_pos.mpr hrest
          simp only [List.length_drop, List.length_cons] at h0
          omega
        have hrec := ih ((a :: t).drop (B + 1))
          (by
            simp only [List.length_drop, List.length_cons]
            simp only [List.length_cons] at hl
            omega) hrest
        obtain ⟨hc, hs, hj⟩ := hrec
        have hne2 : chunkList (B + 1) ((a :: t).drop (B + 1)) ≠ [] := by
          intro hempty
          rw [hempty] at hj
          exact hrest hj.symm
        refine ⟨?_, ?_, ?_⟩
        · simp only [List.length_cons, hc, List.length_drop]
          have harith : t.length + 1 + B = ((t.length + 1 - (B + 1)) + B) + (B + 1) := by
            omega
          rw [harith, Nat.add_div_right _ (by omega)]
        · have hif : (if B + 1 < (a :: t).length then 1 else 0) = 1 := by
            simp only [List.length_cons]
            rw [if_pos (by omega)]
          have hpos : 0 < (chunkList (B + 1) ((a :: t).drop (B + 1))).length :=
            List.length_pos.mpr hne2
          rw [hif, hs]
          simp only [List.length_cons]
          omega
        · simp only [List.flatten_cons]
          rw [hj]
          exact List.take_append_drop (B + 1) (a :: t)

/-- C4.  `getMultipleStreamersInfo` returns, in input order, exactly the
records of the identities whose lookup succeeded: a failing identity
(network error or not-found, both of which `getStreamerInfo` maps to
`null` without rejecting) is the only one missing, the rest of its batch
and the later batches are unaffected, and no exception is raised (the
embedding is a total function).  In particular a batch of three with one
failure yields exactly the other two records. -/
theorem getMultipleStreamersInfo_failure_isolation :
    (∀ (fetch : String → Option StreamerInfo) (logins : List String),
      getMultipleStreamersInfo fetch logins = logins.filterMap fetch) ∧
    (∀ (fetch : String → Option StreamerInfo) (a b c : String) (ra rc : StreamerInfo),
      fetch a = some ra → fetch b = none → fetch c = some rc →
      getMultipleStreamersInfo fetch [a, b, c] = [ra, rc]) := by
  have hmain : ∀ (fetch : String → Option StreamerInfo) (logins : List String),
      getMultipleStreamersInfo fetch logins = logins.filterMap fetch :=
    fun fetch l => getMultipleStreamersInfo_eq_filterMap fetch l.length l le_rfl
  refine ⟨hmain, ?_⟩
  intro fetch a b c ra rc ha hb hc
  rw [hmain]
  simp [List.filterMap_cons, ha, hb, hc]

/-- Witness for C4: of the three identities `a`, `b`, `c`, the lookup of
`b` fails and the result holds exactly the two other records. -/
theorem getMultipleStreamersInfo_failure_isolation_witness :
    getMultipleStreamersInfo sampleFetch ["a", "b", "c"] =
      [{ login := "a" }, { login := "c" }] :=
  getMultipleStreamersInfo_failure_isolation.2 sampleFetch "a" "b" "c"
    { login := "a" } { login := "c" } rfl rfl rfl

/-- C7.  For a positive batch size `B` and a non-empty identity list, the
fetch loops partition the input into exactly `ceil(n/B)` batches whose
concatenation is the input, and sleep the inter-batch delay exactly
`ceil(n/B) - 1` times, skipping the sleep after the last batch. -/
theorem fetchAll_batches_and_pacing :
    ∀ (B : Nat) (l : List String), 0 < B → l ≠ [] →
      (chunkList B l).length = (l.length + B - 1) / B ∧
      interBatchSleeps B l = (l.length + B - 1) / B - 1 ∧
      (chunkList B l).flatten = l := by
  intro B l hB hne
  obtain ⟨B', rfl⟩ : ∃ B', B = B' + 1 := ⟨B - 1, by omega⟩
  have h := chunkList_spec B' l.length l le_rfl hne
  have harith : l.length + (B' + 1) - 1 = l.length + B' := by omega
  rw [harith]
  exact ⟨h.1, by rw [h.2.1, h.1], h.2.2⟩

/-- Witness for C7 at batch size 3 and a seven-identity list: three
batches, two inter-batch sleeps. -/
theorem fetchAll_batches_and_pacing_witness :
    (0 : Nat) < 3 ∧ (["a", "b", "c", "d", "e", "f", "g"] : List String) ≠ [] ∧
    (chunkList 3 ["a", "b", "c", "d", "e", "f", "g"]).length = 3 ∧
    interBatchSleeps 3 ["a", "b", "c", "d", "e", "f", "g"] = 2 := by
  refine ⟨by decide, by decide, ?_, ?_⟩
  · rw [(fetchAll_batches_and_pacing 3 ["a", "b", "c", "d", "e", "f", "g"]
      (by decide) (by decide)).1]
    decide
  · rw [(fetchAll_batches_and_pacing 3 ["a", "b", "c", "d", "e", "f", "g"]
      (by decide) (by decide)).2.1]
    decide

/-- C3 evaluated at the failing input: a cached valid token `"oldTok"`, a
first data request answered 401, a second answered 200.  The code nulls
the token slot but issues the retry with the same stale Bearer token and
performs no token exchange during the call, so no newly acquired token is
used; the request only succeeds because the stub accepts the stale
token. -/
theorem makeRequest_401_retry_reuses_stale_token :
    (makeRequest (some ("oldTok", 1000000000)) (fun _ => 0) (.ok ("newTok", 3600))
        resp401then200 3).events =
      [.dataRequest "oldTok", .dataRequest "oldTok"] ∧
    (makeRequest (some ("oldTok", 1000000000)) (fun _ => 0) (.ok ("newTok", 3600))
        resp401then200 3).result = .ok 42 ∧
    (makeRequest (some ("oldTok", 1000000000)) (fun _ => 0) (.ok ("newTok", 3600))
        resp401then200 3).finalTok = none ∧
    ReqEvent.tokenExchange ∉
      (makeRequest (some ("oldTok", 1000000000)) (fun _ => 0) (.ok ("newTok", 3600))
        resp401then200 3).events := by
  refine ⟨by decide, rfl, by decide, by decide⟩

/-- C5 (amended).  `getAccessToken` fails with the dedicated
`TwitchApiError` when the token endpoint rejects the credentials with 400
or 401, and this error propagates out of `makeRequest`; but
`getUserByLogin` catches every thrown error and returns `null`, so at the
caller-facing level a credential rejection is absorbed into a smaller
result set instead of surfacing as an exception. -/
theorem authError_raised_then_absorbed :
    (∀ now : Int, getAccessToken none now (.error (some 400)) =
      .error (.twitchApiError "Invalid client credentials" (some 400))) ∧
    (∀ now : Int, getAccessToken none now (.error (some 401)) =
      .error (.twitchApiError "Unauthorized - check your client ID and secret" (some 401))) ∧
    (∀ (nowAt : Nat → Int) (resp : Nat → HttpOutcome (List TwitchUser)),
      (makeRequest none nowAt (.error (some 400)) resp 3).result =
        .error (.twitchApiError "Invalid client credentials" (some 400))) ∧
    (∀ (mk : MkResult (List TwitchUser)) (e : ReqError),
      mk.result = .error e → getUserByLogin mk = .ok none) := by
  refine ⟨fun _ => rfl, fun _ => rfl, fun _ _ => rfl, ?_⟩
  intro mk e he
  simp [getUserByLogin, he]

/-- Witness for C5: a call whose `makeRequest` outcome is the
credential-rejection error is absorbed into `null` by `getUserByLogin`. -/
theorem authError_raised_then_absorbed_witness :
    getUserByLogin
        ⟨[], .error (.twitchApiError "Invalid client credentials" (some 400)), none⟩ =
      .ok none :=
  authError_raised_then_absorbed.2.2.2
    ⟨[], .error (.twitchApiError "Invalid client credentials" (some 400)), none⟩
    (.twitchApiError "Invalid client credentials" (some 400)) rfl

/-- Counterexample to C5 as stated: with no cached token, credentials the
token endpoint rejects with 400, and three logins to fetch, the
user-level call returns the value `null` — the `AuthError` does not reach
the caller as an exception, so the result set silently shrinks. -/
theorem credential_rejection_not_raised_to_caller :
    getUserByLogin
        (makeRequest none (fun _ => 0) (.error (some 400)) (fun _ => .success []) 3) =
      .ok none ∧
    getUserByLogin
        (makeRequest none (fun _ => 0) (.error (some 400)) (fun _ => .success []) 3) ≠
      .error (.twitchApiError "Invalid client credentials" (some 400)) := by
  constructor
  · rfl
  · have h : getUserByLogin
        (makeRequest none (fun _ => 0) (.error (some 400)) (fun _ => .success []) 3) =
        .ok none := rfl
    rw [h]
    intro hcontra
    exact Except.noConfusion hcontra

/-- C6 (amended).  In `TwitchServices.ts`, `getAccessToken` returns the
cached token without contacting the upstream exactly when
`now < expiresAt - 300000`; the `part_004` variant instead does so exactly
when `now < expiresAt` (its stored `expiresAt` already embeds the 300 s
buffer).  In both, a first call with an empty slot performs exactly one
exchange and a second call inside the caching window performs none; the
first call past the window performs exactly one new exchange. -/
theorem getAccessToken_cache_window :
    (∀ (tok : String) (exp now : Int) (xch : ExchangeOutcome), now < exp - 300000 →
      getAccessToken (some (tok, exp)) now xch = .ok (some (tok, exp), tok, false)) ∧
    (∀ (tok : String) (exp now : Int) (xch : ExchangeOutcome), ¬ now < exp - 300000 →
      getAccessToken (some (tok, exp)) now xch = tokenExchangeOutcome now xch) ∧
    (∀ (tok : String) (exp now : Int) (xch : ExchangeOutcome), now < exp →
      getAccessTokenV2 (some (tok, exp)) now xch = .ok (some (tok, exp), tok, false)) ∧
    (∀ (tok : String) (exp now : Int) (xch : ExchangeOutcome), ¬ now < exp →
      getAccessTokenV2 (some (tok, exp)) now xch = tokenExchangeOutcomeV2 now xch) ∧
    (∀ (tok : String) (expiresIn now0 now1 : Int) (xch1 : ExchangeOutcome),
      getAccessToken none now0 (.ok (tok, expiresIn)) =
        .ok (some (tok, now0 + expiresIn * 1000 - 300000), tok, true) ∧
      (now1 < now0 + expiresIn * 1000 - 300000 - 300000 →
        getAccessToken (some (tok, now0 + expiresIn * 1000 - 300000)) now1 xch1 =
          .ok (some (tok, now0 + expiresIn * 1000 - 300000), tok, false))) ∧
    (∀ (tok tok2 : String) (exp expiresIn2 now2 : Int), ¬ now2 < exp - 300000 →
      getAccessToken (some (tok, exp)) now2 (.ok (tok2, expiresIn2)) =
        .ok (some (tok2, now2 + expiresIn2 * 1000 - 300000), tok2, true)) := by
  refine ⟨?_, ?_, ?_, ?_, ?_, ?_⟩
  · intro tok exp now xch h
    simp [getAccessToken, if_pos h]
  · intro tok exp now xch h
    simp [getAccessToken, if_neg h]
  · intro tok exp now xch h
    simp [getAccessTokenV2, if_pos h]
  · intro tok exp now xch h
    simp [getAccessTokenV2, if_neg h]
  · intro tok expiresIn now0 now1 xch1
    constructor
    · rfl
    · intro h
      simp [getAccessToken, if_pos h]
  · intro tok tok2 exp expiresIn2 now2 h
    simp [getAccessToken, if_neg h, tokenExchangeOutcome]

/-- Witness for C6: a cached-hit call inside the window, then a call past
the window performing exactly one new exchange. -/
theorem getAccessToken_cache_window_witness :
    ((0 : Int) < 1000000 - 300000) ∧
    getAccessToken (some ("tok", 1000000)) 0 (.ok ("new", 3600)) =
      .ok (some ("tok", 1000000), "tok", false) ∧
    ¬ ((2000000 : Int) < 1000000 - 300000) ∧
    getAccessToken (some ("tok", 1000000)) 2000000 (.ok ("new", 3600)) =
      .ok (some ("new", 2000000 + 3600 * 1000 - 300000), "new", true) := by
  refine ⟨by decide, ?_, by decide, ?_⟩
  · exact getAccessToken_cache_window.1 "tok" 1000000 0 (.ok ("new", 3600)) (by decide)
  · exact getAccessToken_cache_window.2.2.2.2.2 "tok" "new" 1000000 3600 2000000 (by decide)

/-- Counterexample to C6 as stated: the `part_004` `getAccessToken` cited
by the claim returns the cached token without any upstream exchange at a
moment that is not within `expiresAt - 300` seconds. -/
theorem getAccessTokenV2_cached_outside_claimed_window :
    getAccessTokenV2 (some ("tok", 1000000)) 900000 (.ok ("new", 3600)) =
      .ok (some ("tok", 1000000), "tok", false) ∧
    ¬ ((900000 : Int) < 1000000 - 300000) := by
  exact ⟨rfl, by decide⟩

/-- C8 (amended).  On a 429 with attempts left, `makeRequest` sleeps
`max(reset*1000 - now, 1000)` milliseconds when the reset hint is present
and 60000 ms when it is absent, then retries the same request; it makes at
most 3 attempts, and when the last attempt also receives a 429 it rethrows
the original HTTP 429 error — no `RateLimitExceededError` exists in the
code — which the per-identity catch of `getUserByLogin` absorbs, so only
that identity is affected. -/
theorem makeRequest_429_handling :
    (∀ (tok : String) (exp t0 t1 r : Int) (xch : ExchangeOutcome) (d : Nat),
      t0 < exp - 300000 →
      (makeRequest (some (tok, exp)) (fun i => if i = 0 then t0 else t1) xch
          (fun i => if i = 1 then .failure 429 (some r) else .success d) 3).events =
        [.dataRequest tok, .sleepMs (max (r * 1000 - t1) 1000), .dataRequest tok] ∧
      (makeRequest (some (tok, exp)) (fun i => if i = 0 then t0 else t1) xch
          (fun i => if i = 1 then .failure 429 (some r) else .success d) 3).result = .ok d) ∧
    (∀ (tok : String) (exp : Int) (nowAt : Nat → Int) (xch : ExchangeOutcome),
      nowAt 0 < exp - 300000 →
      (makeRequest (some (tok, exp)) nowAt xch always429 3).events =
        [.dataRequest tok, .sleepMs 60000, .dataRequest tok, .sleepMs 60000,
          .dataRequest tok] ∧
      (makeRequest (some (tok, exp)) nowAt xch always429 3).result =
        .error (.httpError 429)) ∧
    (∀ (evs : List ReqEvent) (st : TokState),
      getUserByLogin ⟨evs, .error (.httpError 429), st⟩ = .ok none) := by
  refine ⟨?_, ?_, fun _ _ => rfl⟩
  · intro tok exp t0 t1 r xch d h
    constructor
    · simp [makeRequest, getAccessToken, if_pos h, mrLoop, always429]
    · simp [makeRequest, getAccessToken, if_pos h, mrLoop, always429]
  · intro tok exp nowAt xch h
    constructor
    · simp [makeRequest, getAccessToken, if_pos h, mrLoop, always429]
    · simp [makeRequest, getAccessToken, if_pos h, mrLoop, always429]

/-- Witness for C8: a 429 whose reset hint lies 5 seconds in the future is
retried after a 5000 ms sleep and then succeeds, consuming one retry; a
permanent 429 exhausts all three attempts. -/
theorem makeRequest_429_handling_witness :
    ((0 : Int) < 999999999 - 300000) ∧
    (makeRequest (some ("tok", 999999999)) (fun i => if i = 0 then 0 else 0)
        (.ok ("n", 60)) (fun i => if i = 1 then .failure 429 (some 5) else .success 1)
        3).events =
      [.dataRequest "tok", .sleepMs (max (5 * 1000 - 0) 1000), .dataRequest "tok"] ∧
    (makeRequest (some ("tok", 999999999)) (fun _ => 7) (.ok ("n", 60))
        always429 3).result = .error (.httpError 429) := by
  refine ⟨by decide, ?_, ?_⟩
  · exact (makeRequest_429_handling.1 "tok" 999999999 0 0 5 (.ok ("n", 60)) 1
      (by decide)).1
  · exact (makeRequest_429_handling.2.1 "tok" 999999999 (fun _ => 7) (.ok ("n", 60))
      (by decide)).2

/-- Counterexample to C8 as stated: exhausting the retry bound on
permanent 429s surfaces the rethrown HTTP 429 error, not the
`RateLimitExceededError` the claim names. -/
theorem makeRequest_429_exhaustion_error_kind :
    (makeRequest (some ("tok", 999999999)) (fun _ => 7) (.ok ("n", 60))
        always429 3).result = .error (.httpError 429) ∧
    ReqError.httpError 429 ≠ ReqError.rateLimitExceeded := by
  exact ⟨rfl, by decide⟩

theorem hget_append_single (h : Heap) (v : List StreamerInfo) (r : Nat)
    (hr : r < h.length) : hget (h ++ [v]) r = hget h r := by
  simp [hget, List.getElem?_append_left hr]

theorem hget_set_ne (h : Heap) (j : Nat) (v : List StreamerInfo) (r : Nat)
    (hne : j ≠ r) : hget (hset h j v) r = hget h r := by
  simp [hget, hset, List.getElem?_set_ne hne]

/-- C10.  Neither variant of `calculateStatistics` mutates its input
array: every `filter`, spread and `slice` allocates a fresh array and the
two in-place sorts only target such fresh arrays, so after the call the
input reference still holds the same records in the same order. -/
theorem calculateStatistics_no_input_mutation :
    ∀ (h : Heap) (input : Nat), input < h.length →
      hget (calculateStatisticsHeap h input) input = hget h input ∧
      hget (calculateStatisticsHeapV2 h input) input = hget h input := by
  intro h input hr
  constructor
  · unfold calculateStatisticsHeap
    dsimp only [halloc]
    rw [hget_set_ne, hget_append_single, hget_append_single, hget_set_ne,
      hget_append_single, hget_append_single, hget_append_single,
      hget_append_single, hget_append_single]
    all_goals
      first
      | omega
      | (simp only [hset, List.length_append, List.length_set, List.length_cons,
           List.length_nil]
         omega)
  · unfold calculateStatisticsHeapV2
    dsimp only [halloc]
    rw [hget_set_ne, hget_append_single, hget_set_ne, hget_append_single,
      hget_append_single, hget_append_single, hget_append_single]
    all_goals
      first
      | omega
      | (simp only [hset, List.length_append, List.length_set, List.length_cons,
           List.length_nil]
         omega)

/-- Witness for C10 at a one-array heap holding one record. -/
theorem calculateStatistics_no_input_mutation_witness :
    (0 : Nat) < ([[{ login := "a", viewCount := some 1 }]] : Heap).length ∧
    hget (calculateStatisticsHeap [[{ login := "a", viewCount := some 1 }]] 0) 0 =
      hget [[{ login := "a", viewCount := some 1 }]] 0 ∧
    hget (calculateStatisticsHeapV2 [[{ login := "a", viewCount := some 1 }]] 0) 0 =
      hget [[{ login := "a", viewCount := some 1 }]] 0 := by
  refine ⟨by decide, ?_, ?_⟩
  · exact (calculateStatistics_no_input_mutation
      [[{ login := "a", viewCount := some 1 }]] 0 (by decide)).1
  · exact (calculateStatistics_no_input_mutation
      [[{ login := "a", viewCount := some 1 }]] 0 (by decide)).2
